import Mathlib

/-!
Verification development for the qtilerugo repository: the command-bridge
core (socket listener / decoder / resolver / executor pipeline of the
xcb_wm_bridge and renderer components) and the GoBar helper functions
(`scanApplications`, `setDockProperties`, `uint32SliceToBytes` from
gobar/main.go).

The bridge's Rust sources are not part of the checked-in tree (only its
README-level description is), so the bridge pipeline is modelled from the
specification; the GoBar functions are embedded directly from the Go source.
-/

namespace Qrugo

/-- Modelled from the spec: the closed vocabulary of command names
(`CommandId`).  The bridge's Rust source is missing from the tree; the
variant names are the ones the spec and the READMEs enumerate. -/
inductive CommandId where
  | FocusLeft
  | FocusRight
  | SpawnTerminal
  | KillWindow
  | SpawnWindow
  | SpawnStatusBar
deriving DecidableEq, Repr

/-- Modelled from the spec: the enumerated window operations an `Action`
may request of the Window-System Adapter. -/
inductive WinOp where
  | focusDirLeft
  | focusDirRight
  | killTarget
deriving DecidableEq, Repr

/-- Modelled from the spec: an `Action` is a tagged variant — either a
shell command (program plus ordered argument list) or a window operation
with an optional target selector. -/
inductive Action where
  | shellCommand (program : String) (args : List String)
  | windowOp (op : WinOp) (target : Option String)
deriving DecidableEq, Repr

/-- Modelled from the spec: the per-connection error taxonomy of the
command path (the recoverable errors of section 7). -/
inductive BridgeError where
  | PayloadTooLarge
  | DecodeError
  | UnknownCommand
  | Unmapped
  | ReadTimeout
deriving DecidableEq, Repr

/-- Modelled from the spec: the fatal startup-time error taxonomy. -/
inductive StartupError where
  | BindError
  | ConfigError (msg : String)
deriving DecidableEq, Repr

/-- Modelled from the spec: an externally visible side effect — a
subprocess launch through the Process Spawner, or a window operation
submitted to the Window-System Adapter. -/
inductive Effect where
  | spawned (program : String) (args : List String)
  | windowRequest (op : WinOp) (target : Option String)
deriving DecidableEq, Repr

/-- Modelled from the spec: the `ActionMapping` is a finite association
of `CommandId` keys to `Action` values with unique keys. -/
def ActionMapping : Type := List (CommandId × Action)

/-- Association lookup in an `ActionMapping` (first matching key). -/
def lookupCmd : List (CommandId × Action) → CommandId → Option Action
  | [], _ => none
  | (k, a) :: rest, c => if k = c then some a else lookupCmd rest c

/-- Modelled from the spec: mapping a `CommandId` name string back into
the closed vocabulary; any other string is rejected. -/
def commandIdOfString (s : String) : Option CommandId :=
  if s = "FocusLeft" then some CommandId.FocusLeft
  else if s = "FocusRight" then some CommandId.FocusRight
  else if s = "SpawnTerminal" then some CommandId.SpawnTerminal
  else if s = "KillWindow" then some CommandId.KillWindow
  else if s = "SpawnWindow" then some CommandId.SpawnWindow
  else if s = "SpawnStatusBar" then some CommandId.SpawnStatusBar
  else none

/-- The JSON double-quote character, by code point. -/
def quoteChar : Char := Char.ofNat 34

/-- Drop leading JSON whitespace from a character list. -/
def skipWs : List Char → List Char
  | [] => []
  | c :: rest =>
    if c = ' ' ∨ c = '\n' ∨ c = '\t' ∨ c = '\r' then skipWs rest
    else c :: rest

/-- Read the body of a JSON string literal up to its closing quote,
requiring that nothing but whitespace follows it.  Returns the decoded
string, or `none` when the literal is unterminated or trailed by junk. -/
def finishStringLit : List Char → List Char → Option String
  | [], _ => none
  | c :: rest, acc =>
    if c = quoteChar then
      if skipWs rest = [] then some (String.mk acc.reverse) else none
    else finishStringLit rest (c :: acc)

/-- Modelled from the spec: parse one payload as the observed wire form —
a single bare JSON string (the protocol observed is a bare JSON string
naming the command; the optional object form for parameterized commands
is not modelled, escapes do not occur in command names). -/
def parseBareString (cs : List Char) : Option String :=
  match skipWs cs with
  | [] => none
  | c :: rest => if c = quoteChar then finishStringLit rest [] else none

/-- Modelled from the spec: the decoder's size cap on one payload
(4 KiB), bounding memory against a misbehaving client. -/
def maxPayloadSize : Nat := 4096

/-- Modelled from the spec: the Command Decoder.  Rejects an over-cap
payload with `PayloadTooLarge`, a payload that is not a well-formed JSON
string with `DecodeError`, and a string outside the closed vocabulary
with `UnknownCommand`; otherwise yields the `CommandId`. -/
def decodePayload (p : String) : Except BridgeError CommandId :=
  if p.length > maxPayloadSize then Except.error BridgeError.PayloadTooLarge
  else
    match parseBareString p.toList with
    | none => Except.error BridgeError.DecodeError
    | some s =>
      match commandIdOfString s with
      | none => Except.error BridgeError.UnknownCommand
      | some c => Except.ok c

/-- Modelled from the spec: the Action Resolver — a pure lookup of the
decoded `CommandId` in the `ActionMapping` snapshot, failing with
`Unmapped` when the command has no configured action. -/
def resolve (m : ActionMapping) (c : CommandId) : Except BridgeError Action :=
  match lookupCmd m c with
  | none => Except.error BridgeError.Unmapped
  | some a => Except.ok a

/-- Modelled from the spec: the single externally visible effect the
Action Executor performs for one resolved `Action`. -/
def actionEffect : Action → Effect
  | Action.shellCommand prog args => Effect.spawned prog args
  | Action.windowOp op target => Effect.windowRequest op target

deriving instance DecidableEq for Except

/-- Modelled from the spec: the observable outcome of handling one
connection — the reported result, the list of externally visible effects
performed, and whether the connection was closed. -/
structure ConnOutcome where
  result : Except BridgeError Unit
  effects : List Effect
  closed : Bool
deriving DecidableEq, Repr

/-- Modelled from the spec: the per-connection pipeline
accept → decode → resolve → execute → close.  Every error path closes
the connection with no effect; a resolved action is executed exactly
once. -/
def processConnection (m : ActionMapping) (p : String) : ConnOutcome :=
  match decodePayload p with
  | Except.error e => ⟨Except.error e, [], true⟩
  | Except.ok c =>
    match resolve m c with
    | Except.error e => ⟨Except.error e, [], true⟩
    | Except.ok a => ⟨Except.ok (), [actionEffect a], true⟩

/-- Modelled from the spec: the declarative configuration file as the
Config Store sees it — missing, malformed, or a list of key/action
entries. -/
inductive ConfigFile where
  | missing
  | malformed
  | entries (es : List (String × Action))

/-- Modelled from the spec: validation of the entry list — every key
must name a `CommandId` and keys must be unique; any violation is a
`ConfigError`. -/
def parseEntries : List (String × Action) → List CommandId →
    Except StartupError ActionMapping
  | [], _ => Except.ok []
  | (k, a) :: rest, seen =>
    match commandIdOfString k with
    | none => Except.error (StartupError.ConfigError "unknown key")
    | some c =>
      if c ∈ seen then Except.error (StartupError.ConfigError "duplicate key")
      else
        match parseEntries rest (c :: seen) with
        | Except.error e => Except.error e
        | Except.ok m => Except.ok ((c, a) :: m)

/-- Modelled from the spec: the Config Store's startup load — fails fast
with a descriptive `ConfigError` on a missing file, a malformed file, an
unknown key or a duplicate key. -/
def loadConfig : ConfigFile → Except StartupError ActionMapping
  | ConfigFile.missing => Except.error (StartupError.ConfigError "missing file")
  | ConfigFile.malformed => Except.error (StartupError.ConfigError "malformed entry")
  | ConfigFile.entries es => parseEntries es []

/-- Modelled from the spec: the process-level state machine
Starting → Listening → Draining → Stopped. -/
inductive ProcState where
  | Starting
  | Listening
  | Draining
  | Stopped
deriving DecidableEq, Repr

/-- Modelled from the spec: the states the process passes through at
startup — a config that fails to load stops the process before the
accept loop; a loaded config lets it reach `Listening`. -/
def procTrace (cfg : ConfigFile) : List ProcState :=
  match loadConfig cfg with
  | Except.error _ => [ProcState.Starting, ProcState.Stopped]
  | Except.ok _ => [ProcState.Starting, ProcState.Listening]

/-- Modelled from the spec: the process exit code as determined at
startup — non-zero on startup failure, zero otherwise. -/
def exitCode (cfg : ConfigFile) : Nat :=
  match loadConfig cfg with
  | Except.error _ => 1
  | Except.ok _ => 0

/-- Modelled from the spec: one window operation submitted to the
Window-System Adapter's serialization point, tagged with the submitting
connection. -/
structure Submission where
  conn : Nat
  op : WinOp
  target : Option String
deriving DecidableEq, Repr

/-- Modelled from the spec: the low-level events on the single
window-system connection — each operation is a begin/end pair. -/
inductive AdapterEvent where
  | opBegin (s : Submission)
  | opEnd (s : Submission)
deriving DecidableEq, Repr

/-- Modelled from the spec: the Window-System Adapter's serialization
point — it dequeues submissions one at a time in queue order and runs
each to completion on the single window-system connection before taking
the next. -/
def adapterProcess : List Submission → List AdapterEvent
  | [] => []
  | s :: q => AdapterEvent.opBegin s :: AdapterEvent.opEnd s :: adapterProcess q

/-- The order in which operations complete on the window-system
connection, read off the adapter's event trace. -/
def observedOrder : List AdapterEvent → List Submission
  | [] => []
  | AdapterEvent.opEnd s :: rest => s :: observedOrder rest
  | AdapterEvent.opBegin _ :: rest => observedOrder rest

/-- An event trace is non-interleaved when every operation's begin event
is immediately followed by that same operation's end event. -/
def nonInterleaved : List AdapterEvent → Bool
  | [] => true
  | AdapterEvent.opBegin s :: AdapterEvent.opEnd t :: rest =>
    if s = t then nonInterleaved rest else false
  | _ => false

/-! ## GoBar (gobar/main.go), embedded from the Go source -/

/-- One entry of a directory listing as `ioutil.ReadDir` reports it and
as `scanApplications` consumes it: the file name, whether it is a
directory, and the outcome of `ioutil.ReadFile` on it (`none` models a
read error). -/
structure FileEntry where
  name : String
  isDir : Bool
  readResult : Option String
deriving DecidableEq, Repr

/-- The inner loop of `scanApplications` over the lines of one .desktop
file: it appends the first line with prefix `Name=`, stripped of that
prefix (`strings.TrimPrefix`), and breaks; no such line means no entry. -/
def firstNameLine : List String → Option String
  | [] => none
  | line :: rest =>
    if line.startsWith "Name=" then some (line.drop 5)
    else firstNameLine rest

/-- The per-file step of `scanApplications`: split the file content on
newlines and scan for the first `Name=` line. -/
def desktopName (content : String) : Option String :=
  firstNameLine (content.splitOn "\n")

/-- The file loop of `scanApplications`: a non-directory entry whose
name ends in `.desktop` is read; a read error is skipped with
`continue`; otherwise its `desktopName`, when present, is appended. -/
def scanFiles : List FileEntry → List String
  | [] => []
  | f :: rest =>
    if !f.isDir && f.name.endsWith ".desktop" then
      match f.readResult with
      | none => scanFiles rest
      | some content =>
        match desktopName content with
        | none => scanFiles rest
        | some n => n :: scanFiles rest
    else scanFiles rest

/-- `scanApplications` from gobar/main.go: on a `ReadDir` error it
returns the still-empty `apps` slice and that error; otherwise it scans
the listed files and returns the collected names with a nil error. -/
def scanApplications (dirResult : Except String (List FileEntry)) :
    List String × Option String :=
  match dirResult with
  | Except.error e => ([], some e)
  | Except.ok files => (scanFiles files, none)

/-- The little-endian 4-byte encoding `binary.Write(buf,
binary.LittleEndian, v)` produces for one uint32 value. -/
def le32 (v : Nat) : List Nat :=
  [v % 256, v / 256 % 256, v / 65536 % 256, v / 16777216 % 256]

/-- `uint32SliceToBytes` from gobar/main.go: writes each uint32 of the
slice into the buffer in little-endian order and returns the buffer's
bytes. -/
def uint32SliceToBytes : List Nat → List Nat
  | [] => []
  | v :: rest => le32 v ++ uint32SliceToBytes rest

/-- Go's `uint32(i)` conversion of a signed integer: the value modulo
2^32. -/
def u32ofInt (i : Int) : Nat := (i % (4294967296 : Int)).toNat

/-- The `strutPartial` slice built by `setDockProperties`:
left, right, bottom, top, left_start, left_end, right_start, right_end,
top_start, top_end, bottom_start, bottom_end. -/
def strutPartialValues (barHeight screenWidth : Int) : List Nat :=
  [0, 0, 0, u32ofInt barHeight,
   0, 0, 0, 0,
   0, u32ofInt screenWidth,
   0, 0]

/-- The byte payload `setDockProperties` passes to `ChangeProperty` for
`_NET_WM_STRUT_PARTIAL`: the strut slice through `uint32SliceToBytes`. -/
def setDockPropertiesStrutBytes (barHeight screenWidth : Int) : List Nat :=
  uint32SliceToBytes (strutPartialValues barHeight screenWidth)

/-- A payload one byte over the 4 KiB cap, for concrete witnesses. -/
def oversizedPayload : String := String.mk (List.replicate 4097 'a')

/-- The contribution of one directory entry to the application list, as
the spec of `scanFiles` describes it: a readable non-directory
`.desktop` file contributes its `desktopName`, anything else nothing. -/
def entryContribution (f : FileEntry) : Option String :=
  if !f.isDir && f.name.endsWith ".desktop" then f.readResult.bind desktopName
  else none

/-! ## Theorems -/

/-- The file loop of `scanApplications` is a `filterMap` of the
per-entry contribution over the directory listing. -/
theorem scanFiles_eq_filterMap (files : List FileEntry) :
    scanFiles files = files.filterMap entryContribution := by
  induction files with
  | nil => rfl
  | cons f rest ih =>
    by_cases hdesk : (!f.isDir && f.name.endsWith ".desktop") = true
    · cases hread : f.readResult with
      | none => simp [scanFiles, entryContribution, hdesk, hread, ih]
      | some content =>
        cases hname : desktopName content with
        | none => simp [scanFiles, entryContribution, hdesk, hread, hname, ih]
        | some n => simp [scanFiles, entryContribution, hdesk, hread, hname, ih]
    · simp [scanFiles, entryContribution, hdesk, ih]

/-- The line loop of `scanApplications` picks the first `Name=` line and
strips the five-character prefix. -/
theorem firstNameLine_eq_find (ls : List String) :
    firstNameLine ls =
      (ls.find? (fun l => l.startsWith "Name=")).map (fun l => l.drop 5) := by
  induction ls with
  | nil => rfl
  | cons line rest ih =>
    by_cases h : line.startsWith "Name=" = true
    · simp [firstNameLine, List.find?, h]
    · simp [firstNameLine, List.find?, h, ih]

/-- Claim C8: for every directory listing, `scanApplications` returns at
most one entry per regular (non-directory) file whose name ends in
`.desktop` — the first line of that file's content starting with `Name=`
with the prefix stripped; directories, files with other names and files
without such a line contribute nothing, and entries appear in
directory-listing order. -/
theorem scanApplications_entries (files : List FileEntry) :
    (scanApplications (Except.ok files)).1 = files.filterMap entryContribution ∧
    ∀ content : String,
      desktopName content =
        ((content.splitOn "\n").find? (fun l => l.startsWith "Name=")).map
          (fun l => l.drop 5) := by
  exact ⟨scanFiles_eq_filterMap files, fun content => firstNameLine_eq_find _⟩

/-- Claim C9: `scanApplications` reports an error exactly when reading
the directory itself fails, and then with an empty list; a read failure
on an individual file is silently skipped, the scan succeeding with that
file omitted. -/
theorem scanApplications_error_behavior :
    (∀ files : List FileEntry, (scanApplications (Except.ok files)).2 = none) ∧
    (∀ e : String, scanApplications (Except.error e) = ([], some e)) ∧
    (∀ (name : String) (d : Bool) (rest : List FileEntry),
      scanFiles (⟨name, d, none⟩ :: rest) = scanFiles rest) := by
  refine ⟨fun files => rfl, fun e => rfl, fun name d rest => ?_⟩
  by_cases h : (!d && name.endsWith ".desktop") = true
  · simp [scanFiles, h]
  · simp [scanFiles, h]

/-- Claim C10: `setDockProperties` encodes a strut of exactly twelve
32-bit cardinals with index 3 equal to `barHeight`, index 9 equal to
`screenWidth` and the other ten zero, and `uint32SliceToBytes` encodes
every uint32 slice into exactly four little-endian bytes per element. -/
theorem strut_encoding (barHeight screenWidth : Int)
    (hb0 : 0 ≤ barHeight) (hb1 : barHeight < 4294967296)
    (hw0 : 0 ≤ screenWidth) (hw1 : screenWidth < 4294967296) :
    strutPartialValues barHeight screenWidth =
      [0, 0, 0, barHeight.toNat, 0, 0, 0, 0, 0, screenWidth.toNat, 0, 0] ∧
    (strutPartialValues barHeight screenWidth).length = 12 ∧
    (∀ slice : List Nat,
      uint32SliceToBytes slice = slice.flatMap le32 ∧
      (uint32SliceToBytes slice).length = 4 * slice.length) ∧
    (∀ v : Nat, v < 4294967296 →
      (le32 v).length = 4 ∧
      (le32 v).foldr (fun b acc => b + 256 * acc) 0 = v) := by
  refine ⟨?_, rfl, ?_, ?_⟩
  · simp [strutPartialValues, u32ofInt, Int.emod_eq_of_lt hb0 hb1,
      Int.emod_eq_of_lt hw0 hw1]
  · intro slice
    constructor
    · induction slice with
      | nil => rfl
      | cons v rest ih => simp [uint32SliceToBytes, ih]
    · induction slice with
      | nil => rfl
      | cons v rest ih =>
        simp [uint32SliceToBytes, le32, ih]
        ring
  · intro v hv
    refine ⟨rfl, ?_⟩
    simp [le32]
    omega

/-- Witness for C10 at the configured bar geometry 30 × 1920. -/
theorem strut_encoding_witness :
    strutPartialValues 30 1920 = [0, 0, 0, 30, 0, 0, 0, 0, 0, 1920, 0, 0] :=
  (strut_encoding 30 1920 (by decide) (by decide) (by decide) (by decide)).1

/-- Claim C1: a connection carrying a command that is present in the
`ActionMapping` triggers exactly one execution of the mapped action —
the effect list is precisely that one effect — and the connection is
closed. -/
theorem bridge_mapped_command_single_effect (m : ActionMapping) (p : String)
    (c : CommandId) (a : Action)
    (hdec : decodePayload p = Except.ok c) (hmap : lookupCmd m c = some a) :
    processConnection m p = ⟨Except.ok (), [actionEffect a], true⟩ := by
  simp [processConnection, hdec, resolve, hmap]

/-- Witness for C1: `FocusLeft` mapped to a window operation is executed
exactly once. -/
theorem bridge_mapped_command_single_effect_witness :
    processConnection [(CommandId.FocusLeft, Action.windowOp WinOp.focusDirLeft none)]
        "\"FocusLeft\"" =
      ⟨Except.ok (), [Effect.windowRequest WinOp.focusDirLeft none], true⟩ :=
  bridge_mapped_command_single_effect _ _ CommandId.FocusLeft
    (Action.windowOp WinOp.focusDirLeft none) (by decide) (by decide)

/-- Claim C2: a decoded command that is absent from the `ActionMapping`
makes resolution fail with `Unmapped`; the handler still returns (no
crash), the error is reported, the connection is closed and zero side
effects are performed. -/
theorem bridge_unmapped_no_effects (m : ActionMapping) (p : String)
    (c : CommandId)
    (hdec : decodePayload p = Except.ok c) (hmap : lookupCmd m c = none) :
    processConnection m p = ⟨Except.error BridgeError.Unmapped, [], true⟩ := by
  simp [processConnection, hdec, resolve, hmap]

/-- Witness for C2: `KillWindow` under the empty mapping yields
`Unmapped` with no effect. -/
theorem bridge_unmapped_no_effects_witness :
    processConnection [] "\"KillWindow\"" =
      ⟨Except.error BridgeError.Unmapped, [], true⟩ :=
  bridge_unmapped_no_effects [] _ CommandId.KillWindow (by decide) (by decide)

/-- Claim C3: within the size cap, a payload that is not a well-formed
JSON string fails with `DecodeError`, and a well-formed string outside
the closed vocabulary fails with `UnknownCommand`; in both cases the
outcome is the same for every mapping (no lookup is consulted) and no
action is executed. -/
theorem decoder_malformed_and_unknown (p : String)
    (hlen : ¬ p.length > maxPayloadSize) :
    (parseBareString p.toList = none →
      ∀ m : ActionMapping,
        processConnection m p = ⟨Except.error BridgeError.DecodeError, [], true⟩) ∧
    (∀ s, parseBareString p.toList = some s → commandIdOfString s = none →
      ∀ m : ActionMapping,
        processConnection m p =
          ⟨Except.error BridgeError.UnknownCommand, [], true⟩) := by
  constructor
  · intro hparse m
    unfold String.toList at hparse
    simp [processConnection, decodePayload, hlen, hparse]
  · intro s hparse hcmd m
    unfold String.toList at hparse
    simp [processConnection, decodePayload, hlen, hparse, hcmd]

/-- Witness for C3: a non-JSON payload and the spec's
`"NotARealCommand"` scenario. -/
theorem decoder_malformed_and_unknown_witness :
    processConnection [] "not json" =
      ⟨Except.error BridgeError.DecodeError, [], true⟩ ∧
    processConnection [] "\"NotARealCommand\"" =
      ⟨Except.error BridgeError.UnknownCommand, [], true⟩ :=
  ⟨(decoder_malformed_and_unknown "not json" (by decide)).1 (by decide) [],
   (decoder_malformed_and_unknown "\"NotARealCommand\"" (by decide)).2
     "NotARealCommand" (by decide) (by decide) []⟩

/-- Claim C4: a payload over the size cap is rejected with
`PayloadTooLarge`, the connection is closed, and no action is
executed. -/
theorem payload_too_large_rejected (m : ActionMapping) (p : String)
    (h : p.length > maxPayloadSize) :
    processConnection m p = ⟨Except.error BridgeError.PayloadTooLarge, [], true⟩ := by
  simp [processConnection, decodePayload, h]

/-- Witness for C4: a 4097-byte payload is rejected. -/
theorem payload_too_large_rejected_witness :
    processConnection [] oversizedPayload =
      ⟨Except.error BridgeError.PayloadTooLarge, [], true⟩ :=
  payload_too_large_rejected [] oversizedPayload (by
    show (String.mk (List.replicate 4097 'a')).length > maxPayloadSize
    rw [String.length_mk, List.length_replicate]
    decide)

/-- Claim C5: decoding is a deterministic, side-effect-free function of
the payload — two runs on the same bytes agree, a payload that fails to
decode produces no effect, and any effect at all arises only from the
execution of a fully resolved action, never from decoding. -/
theorem decode_deterministic_pure (p : String) :
    decodePayload p = decodePayload p ∧
    (∀ e, decodePayload p = Except.error e →
      ∀ m : ActionMapping, (processConnection m p).effects = []) ∧
    (∀ m : ActionMapping, (processConnection m p).effects ≠ [] →
      ∃ c a, decodePayload p = Except.ok c ∧ lookupCmd m c = some a ∧
        (processConnection m p).effects = [actionEffect a]) := by
  refine ⟨rfl, ?_, ?_⟩
  · intro e he m
    simp [processConnection, he]
  · intro m hne
    cases hdec : decodePayload p with
    | error e => simp [processConnection, hdec] at hne
    | ok c =>
      cases hmap : lookupCmd m c with
      | none => simp [processConnection, hdec, resolve, hmap] at hne
      | some a =>
        exact ⟨c, a, rfl, hmap, by simp [processConnection, hdec, resolve, hmap]⟩

/-- Witness for C5: an undecodable payload yields no effect. -/
theorem decode_deterministic_pure_witness :
    (processConnection [] "").effects = [] :=
  (decode_deterministic_pure "").2.1 BridgeError.DecodeError (by decide) []

/-- Claim C6: a missing or malformed configuration file fails
`loadConfig` with a `ConfigError`, the process never reaches the
`Listening` state, and it exits non-zero. -/
theorem bad_config_never_listening (cfg : ConfigFile)
    (h : cfg = ConfigFile.missing ∨ cfg = ConfigFile.malformed) :
    (∃ msg, loadConfig cfg = Except.error (StartupError.ConfigError msg)) ∧
    ProcState.Listening ∉ procTrace cfg ∧
    exitCode cfg ≠ 0 := by
  rcases h with h | h <;> subst h <;>
    exact ⟨⟨_, rfl⟩, by decide, by decide⟩

/-- Witness for C6: the missing-file startup. -/
theorem bad_config_never_listening_witness :
    ProcState.Listening ∉ procTrace ConfigFile.missing ∧
    exitCode ConfigFile.missing ≠ 0 :=
  ⟨(bad_config_never_listening ConfigFile.missing (Or.inl rfl)).2.1,
   (bad_config_never_listening ConfigFile.missing (Or.inl rfl)).2.2⟩

/-- Claim C7: the Window-System Adapter completes operations in exactly
the order they were submitted to its queue (FIFO), and its event trace
is never interleaved mid-operation — every begin is immediately followed
by the matching end on the single window-system connection. -/
theorem adapter_fifo_non_interleaved (q : List Submission) :
    observedOrder (adapterProcess q) = q ∧
    nonInterleaved (adapterProcess q) = true := by
  induction q with
  | nil => exact ⟨rfl, rfl⟩
  | cons s rest ih =>
    refine ⟨?_, ?_⟩
    · simp [adapterProcess, observedOrder, ih.1]
    · simp [adapterProcess, nonInterleaved, ih.2]

end Qrugo
